import Mathlib

/-!
Shallow embedding of the ride-booking agent's tool layer
(`tools/estimate_trip_cost.py`, `tools/filter_vehicles_by_constraints.py`,
`tools/recommend_best_vehicle.py`, `tools/geocode_location.py`,
`tools/calculate_route.py`), together with proofs about the embedded
operations.

Modelling conventions:
* Python's exact numeric values are modelled over ordered fields: `ℚ` for
  data on which the code only performs field operations, `ℝ` where the code
  applies transcendental functions (`math.sin`, `math.atan2`, ...).
* Python's builtin `round(x, n)` is modelled as round-half-to-even of the
  value scaled by `10 ^ n` (the rounding rule of Python's `round`).
* Python string operations (`lower`, `strip`, `split`, `in`, `replace`,
  `startswith`, `title`) are modelled character-by-character over `s.data`;
  all strings appearing in this program are ASCII, so the ASCII case
  conversions used below agree with Python's Unicode ones on this data.
* A network call is modelled by passing the response the call would yield
  as an explicit argument of the embedded function.
* A Python function that can raise has `Option` result type (`none` =
  an uncaught exception escapes).
-/

namespace RideBooking

/-! ### Python `round` -/

/-- Round-half-to-even: the integer nearest to `x`, with ties resolved
towards the even integer.  This is the rounding rule of Python's builtin
`round` on exactly representable values. -/
def halfEven {α : Type} [LinearOrderedField α] [FloorRing α] (x : α) : ℤ :=
  ⌊x⌋ + (if 1 / 2 < Int.fract x ∨ (Int.fract x = 1 / 2 ∧ ¬ Even ⌊x⌋) then 1 else 0)

/-- Python `round(x, ndigits)` for `ndigits ≥ 0`. -/
def pyRound {α : Type} [LinearOrderedField α] [FloorRing α] (ndigits : ℕ) (x : α) : α :=
  (halfEven (x * 10 ^ ndigits) : α) / 10 ^ ndigits

section RoundLemmas

variable {α : Type} [LinearOrderedField α] [FloorRing α]

theorem halfEven_intCast (n : ℤ) : halfEven (n : α) = n := by
  simp [halfEven, Int.fract_intCast]

theorem halfEven_nonneg {x : α} (h : 0 ≤ x) : 0 ≤ halfEven x := by
  have hf : (0 : ℤ) ≤ ⌊x⌋ := Int.floor_nonneg.mpr h
  unfold halfEven
  split <;> omega

theorem halfEven_mono {x y : α} (h : x ≤ y) : halfEven x ≤ halfEven y := by
  rcases lt_or_eq_of_le (Int.floor_mono h) with hf | hf
  · unfold halfEven
    split <;> split <;> omega
  · have hfr : Int.fract x ≤ Int.fract y := by
      simp only [Int.fract]
      rw [← hf]
      linarith
    have himp : (1 / 2 < Int.fract x ∨ (Int.fract x = 1 / 2 ∧ ¬ Even ⌊y⌋)) →
        (1 / 2 < Int.fract y ∨ (Int.fract y = 1 / 2 ∧ ¬ Even ⌊y⌋)) := by
      rintro (hlt | ⟨heq, hodd⟩)
      · exact Or.inl (lt_of_lt_of_le hlt hfr)
      · rcases lt_or_eq_of_le (heq ▸ hfr) with hlt | hEq
        · exact Or.inl hlt
        · exact Or.inr ⟨hEq.symm, hodd⟩
    unfold halfEven
    rw [hf]
    split
    · split
      · omega
      · exact absurd (himp (by assumption)) (by assumption)
    · split <;> omega

/-- Adding an even integer commutes with round-half-to-even. -/
theorem halfEven_int_add {n : ℤ} (hn : Even n) (x : α) :
    halfEven ((n : α) + x) = n + halfEven x := by
  have hfl : ⌊(n : α) + x⌋ = n + ⌊x⌋ := Int.floor_int_add n x
  have hfr : Int.fract ((n : α) + x) = Int.fract x := Int.fract_int_add n x
  have hev : (¬ Even (n + ⌊x⌋)) ↔ (¬ Even ⌊x⌋) := by
    rw [Int.even_add]
    simp [hn]
  unfold halfEven
  rw [hfl, hfr]
  by_cases hc : 1 / 2 < Int.fract x ∨ (Int.fract x = 1 / 2 ∧ ¬ Even ⌊x⌋)
  · rw [if_pos, if_pos hc]
    · ring
    · rcases hc with hlt | ⟨heq, hodd⟩
      · exact Or.inl hlt
      · exact Or.inr ⟨heq, hev.mpr hodd⟩
  · rw [if_neg, if_neg hc]
    · ring
    · rintro (hlt | ⟨heq, hodd⟩)
      · exact hc (Or.inl hlt)
      · exact hc (Or.inr ⟨heq, hev.mp hodd⟩)

theorem pyRound_nonneg {x : α} (d : ℕ) (h : 0 ≤ x) : 0 ≤ pyRound d x := by
  unfold pyRound
  apply div_nonneg _ (by positivity)
  exact_mod_cast halfEven_nonneg (by positivity)

theorem pyRound_mono {x y : α} (d : ℕ) (h : x ≤ y) : pyRound d x ≤ pyRound d y := by
  unfold pyRound
  have hm : halfEven (x * 10 ^ d) ≤ halfEven (y * 10 ^ d) :=
    halfEven_mono (by
      apply mul_le_mul_of_nonneg_right h
      positivity)
  have hm' : ((halfEven (x * 10 ^ d) : ℤ) : α) ≤ ((halfEven (y * 10 ^ d) : ℤ) : α) := by
    exact_mod_cast hm
  exact div_le_div_of_nonneg_right hm' (by positivity)

/-- The map `pyRound` is the identity on values that are already integers after
scaling. -/
theorem pyRound_eq_of_scaled_int {x : α} {d : ℕ} {n : ℤ} (h : x * 10 ^ d = (n : α)) :
    pyRound d x = (n : α) / 10 ^ d := by
  unfold pyRound
  rw [h, halfEven_intCast]

/-- When the scaled fractional part is below one half, `pyRound` rounds down. -/
theorem pyRound_eq_of_fract_lt_half {x : α} {d : ℕ}
    (h : Int.fract (x * 10 ^ d) < 1 / 2) :
    pyRound d x = ((⌊x * 10 ^ d⌋ : ℤ) : α) / 10 ^ d := by
  unfold pyRound halfEven
  rw [if_neg]
  · norm_num
  · rintro (hlt | ⟨heq, _⟩)
    · exact absurd (lt_trans h hlt) (lt_irrefl _)
    · rw [heq] at h
      exact absurd h (lt_irrefl _)

/-- Evaluation rule: `pyRound` of a value equal to an integer. -/
theorem pyRound_eq_num (d : ℕ) (n : ℤ) {x y : α} (hx : x = (n : α))
    (hy : (n : α) = y) : pyRound d x = y := by
  subst hx
  subst hy
  unfold pyRound
  have h : (n : α) * 10 ^ d = ((n * 10 ^ d : ℤ) : α) := by push_cast; ring
  rw [h, halfEven_intCast]
  push_cast
  rw [mul_div_assoc, div_self (by positivity), mul_one]

/-- Evaluation rule: `pyRound` rounds down when the scaled value is an
integer plus a fraction below one half. -/
theorem pyRound_down (d : ℕ) (n : ℤ) (f : α) {x y : α}
    (hx : x * 10 ^ d = (n : α) + f) (h0 : 0 ≤ f) (h1 : f < 1 / 2)
    (hy : (n : α) / 10 ^ d = y) : pyRound d x = y := by
  subst hy
  have hf1 : f < 1 := lt_trans h1 (by norm_num)
  have hfr : Int.fract (x * 10 ^ d) = f := by
    rw [hx, Int.fract_int_add, Int.fract_eq_self.mpr ⟨h0, hf1⟩]
  have hfl : ⌊x * 10 ^ d⌋ = n := by
    rw [hx, Int.floor_int_add, Int.floor_eq_zero_iff.mpr ⟨h0, hf1⟩, add_zero]
  rw [pyRound_eq_of_fract_lt_half (by rw [hfr]; exact h1), hfl]

/-- Adding an integer commutes with `pyRound 2` (the integer scales to an
even multiple of 100). -/
theorem pyRound2_add_int (k : ℤ) (x : α) :
    pyRound 2 ((k : α) + x) = (k : α) + pyRound 2 x := by
  unfold pyRound
  have h : ((k : α) + x) * 10 ^ 2 = ((k * 100 : ℤ) : α) + x * 10 ^ 2 := by
    push_cast
    ring
  rw [h, halfEven_int_add ⟨k * 50, by ring⟩]
  push_cast
  ring

/-- The map `pyRound 2` distributes over a sum whose outer terms are integers. -/
theorem pyRound2_int_add_int (b tt : ℤ) (x : α) :
    pyRound 2 ((b : α) + x + (tt : α)) = (b : α) + pyRound 2 x + (tt : α) := by
  have h : (b : α) + x + (tt : α) = ((b + tt : ℤ) : α) + x := by push_cast; ring
  rw [h, pyRound2_add_int]
  push_cast
  ring

end RoundLemmas

/-! ### Python string operations -/

/-- Python `str.lower` on an ASCII character. -/
def pyLowerChar (c : Char) : Char :=
  if 'A' ≤ c ∧ c ≤ 'Z' then Char.ofNat (c.toNat + 32) else c

/-- Python `str.upper` on an ASCII character. -/
def pyUpperChar (c : Char) : Char :=
  if 'a' ≤ c ∧ c ≤ 'z' then Char.ofNat (c.toNat - 32) else c

/-- Is `c` an ASCII letter? -/
def asciiAlpha (c : Char) : Bool :=
  ('a' ≤ c && c ≤ 'z') || ('A' ≤ c && c ≤ 'Z')

/-- Python `str.lower` (ASCII data). -/
def pyLower (s : String) : String := ⟨s.data.map pyLowerChar⟩

/-- Does the second list start with the first? -/
def leadsWith : List Char → List Char → Bool
  | [], _ => true
  | _ :: _, [] => false
  | a :: as, b :: bs => a == b && leadsWith as bs

/-- Does `needle` occur as a contiguous sublist? -/
def occursIn (needle : List Char) : List Char → Bool
  | [] => needle.isEmpty
  | c :: rest => leadsWith needle (c :: rest) || occursIn needle rest

/-- Python `needle in hay` for strings. -/
def pyIn (needle hay : String) : Bool := occursIn needle.data hay.data

/-- Python `str.startswith`. -/
def pyStartsWith (s pre : String) : Bool := leadsWith pre.data s.data

/-- Python `str.strip()` (no argument: strips whitespace at both ends). -/
def pyStrip (s : String) : String :=
  ⟨((s.data.dropWhile Char.isWhitespace).reverse.dropWhile Char.isWhitespace).reverse⟩

/-- Python `str.split()` (no argument: split on whitespace runs, empty
pieces discarded). -/
def pySplitWs (s : String) : List String :=
  ((s.data.splitOnP Char.isWhitespace).filter (fun w => !w.isEmpty)).map
    (fun w => String.mk w)

/-- Python `str.replace`, replacing each non-overlapping occurrence of
`pat` scanning left to right.  The first argument is recursion fuel (the
scan consumes at least one character per step, so fuelling with the
length of the scanned list makes the fuel irrelevant); structural
recursion on the fuel keeps the definition kernel-reducible. -/
def replaceFuel (pat rep : List Char) : ℕ → List Char → List Char
  | 0, l => l
  | _ + 1, [] => []
  | fuel + 1, c :: rest =>
    if !pat.isEmpty && leadsWith pat (c :: rest) then
      rep ++ replaceFuel pat rep fuel ((c :: rest).drop pat.length)
    else
      c :: replaceFuel pat rep fuel rest

/-- Python `str.replace`. -/
def pyReplace (s pat rep : String) : String :=
  ⟨replaceFuel pat.data rep.data s.data.length s.data⟩

/-- Helper for Python `str.title`: the boolean records whether the previous
character was a letter. -/
def titleList : List Char → Bool → List Char
  | [], _ => []
  | c :: rest, prev =>
    (if asciiAlpha c then (if prev then pyLowerChar c else pyUpperChar c) else c) ::
      titleList rest (asciiAlpha c)

/-- Python `str.title` (ASCII data). -/
def pyTitle (s : String) : String := ⟨titleList s.data false⟩

/-- Python `s or default` for strings: the default when `s` is empty. -/
def pyOrElse (s default : String) : String := if s = "" then default else s

/-! ### `tools/estimate_trip_cost.py` -/

/-- One value of the `vehicle_multipliers` dict. -/
structure Pricing where
  per_km : ℚ
  per_min : ℚ
  base_multiplier : ℚ
  comfort : String
deriving DecidableEq

/-- Embedding of `base_rate = 250  # Starting fare`. -/
def base_rate : ℚ := 250

/-- Entry `vehicle_multipliers["economy"]` of the rate dict. -/
def economyPricing : Pricing := ⟨80, 15, 1, "Basic"⟩

/-- Entry `vehicle_multipliers["standard"]` of the rate dict. -/
def standardPricing : Pricing := ⟨100, 20, 1, "Standard"⟩

/-- Entry `vehicle_multipliers["luxury"]` of the rate dict. -/
def luxuryPricing : Pricing := ⟨150, 30, 3 / 2, "Premium"⟩

/-- Entry `vehicle_multipliers["premium"]` of the rate dict. -/
def premiumPricing : Pricing := ⟨140, 28, 7 / 5, "Premium"⟩

/-- Entry `vehicle_multipliers["suv"]` of the rate dict. -/
def suvPricing : Pricing := ⟨120, 25, 6 / 5, "Comfort"⟩

/-- Entry `vehicle_multipliers["van"]` of the rate dict. -/
def vanPricing : Pricing := ⟨130, 26, 13 / 10, "Spacious"⟩

/-- Entry `vehicle_multipliers["minivan"]` of the rate dict. -/
def minivanPricing : Pricing := ⟨125, 25, 5 / 4, "Spacious"⟩

/-- Entry `vehicle_multipliers["sedan"]` of the rate dict. -/
def sedanPricing : Pricing := ⟨90, 18, 1, "Standard"⟩

/-- The `if`/`elif` chain of `estimate_trip_cost` that picks the pricing
record from the vehicle type. -/
def selectPricing (vehicle_type : String) : Pricing :=
  let vehicle_lower := pyLower vehicle_type
  if pyIn "luxury" vehicle_lower || pyIn "premium" vehicle_lower ||
      pyIn "mercedes" vehicle_lower || pyIn "bmw" vehicle_lower then
    luxuryPricing
  else if pyIn "van" vehicle_lower then
    vanPricing
  else if pyIn "suv" vehicle_lower then
    suvPricing
  else if pyIn "economy" vehicle_lower || pyIn "budget" vehicle_lower then
    economyPricing
  else
    standardPricing

/-- The `"breakdown"` sub-dict of the result of `estimate_trip_cost`. -/
structure CostBreakdown where
  base_fare : ℚ
  distance_charge : ℚ
  time_charge : ℚ
  subtotal : ℚ
  surge_multiplier : ℚ
  final_total : ℚ
deriving DecidableEq

/-- The result dict of `estimate_trip_cost`. -/
structure CostEstimate where
  estimated_cost : ℚ
  currency : String
  vehicle_category : String
  breakdown : CostBreakdown
  pricing_note : String
deriving DecidableEq

/-- Embedding of `estimate_trip_cost(distance_km, duration_minutes, vehicle_type,
surge_multiplier)`.  `duration_minutes` is annotated `int` in the source. -/
def estimate_trip_cost (distance_km : ℚ) (duration_minutes : ℤ)
    (vehicle_type : String) (surge_multiplier : ℚ) : CostEstimate :=
  let pricing := selectPricing vehicle_type
  let adjusted_base := base_rate * pricing.base_multiplier
  let distance_charge := distance_km * pricing.per_km
  let time_charge := (duration_minutes : ℚ) * pricing.per_min
  let subtotal := adjusted_base + distance_charge + time_charge
  let final_cost := subtotal * surge_multiplier
  { estimated_cost := pyRound 2 final_cost
    currency := "LKR"
    vehicle_category := pricing.comfort
    breakdown :=
      { base_fare := pyRound 2 adjusted_base
        distance_charge := pyRound 2 distance_charge
        time_charge := pyRound 2 time_charge
        subtotal := pyRound 2 subtotal
        surge_multiplier := surge_multiplier
        final_total := pyRound 2 final_cost }
    pricing_note := pricing.comfort ++ " vehicle - LKR " ++ toString pricing.per_km ++
      "/km + LKR " ++ toString pricing.per_min ++ "/min" }

/-! Spec-side definitions for the category-matching claim. -/

/-- The five rate categories named by the specification. -/
inductive RateCategory where
  | Luxury
  | Van
  | SUV
  | Economy
  | Standard
deriving DecidableEq

/-- Modelled from the spec: "Category matching is by case-insensitive
substring rules applied in a fixed priority order: luxury/premium/
named-premium-makes → Luxury; contains `van` → Van; contains `suv` → SUV;
contains `economy`/`budget` → Economy; otherwise → Standard".  The named
premium makes are `mercedes` and `bmw`. -/
def specCategory (vehicle_type : String) : RateCategory :=
  let v := pyLower vehicle_type
  if pyIn "luxury" v || pyIn "premium" v || pyIn "mercedes" v || pyIn "bmw" v then
    RateCategory.Luxury
  else if pyIn "van" v then
    RateCategory.Van
  else if pyIn "suv" v then
    RateCategory.SUV
  else if pyIn "economy" v || pyIn "budget" v then
    RateCategory.Economy
  else
    RateCategory.Standard

/-- The rate record the specification assigns to each category. -/
def categoryPricing : RateCategory → Pricing
  | RateCategory.Luxury => luxuryPricing
  | RateCategory.Van => vanPricing
  | RateCategory.SUV => suvPricing
  | RateCategory.Economy => economyPricing
  | RateCategory.Standard => standardPricing

/-- Only five of the eight pricing records are reachable from the
`if`/`elif` chain. -/
theorem selectPricing_cases (vt : String) :
    selectPricing vt = luxuryPricing ∨ selectPricing vt = vanPricing ∨
    selectPricing vt = suvPricing ∨ selectPricing vt = economyPricing ∨
    selectPricing vt = standardPricing := by
  unfold selectPricing
  dsimp only
  split_ifs <;> simp

/-- Every reachable pricing record has positive rates, and its base
charge `250 × base_multiplier` is an integer. -/
theorem selectPricing_rates (vt : String) :
    0 < (selectPricing vt).per_km ∧ 0 < (selectPricing vt).per_min ∧
    ∃ nb : ℤ, base_rate * (selectPricing vt).base_multiplier = (nb : ℚ) ∧
      ∃ pm : ℤ, (selectPricing vt).per_min = (pm : ℚ) := by
  rcases selectPricing_cases vt with h | h | h | h | h <;> rw [h]
  · exact ⟨by norm_num [luxuryPricing], by norm_num [luxuryPricing],
      375, by norm_num [luxuryPricing, base_rate], 30, by norm_num [luxuryPricing]⟩
  · exact ⟨by norm_num [vanPricing], by norm_num [vanPricing],
      325, by norm_num [vanPricing, base_rate], 26, by norm_num [vanPricing]⟩
  · exact ⟨by norm_num [suvPricing], by norm_num [suvPricing],
      300, by norm_num [suvPricing, base_rate], 25, by norm_num [suvPricing]⟩
  · exact ⟨by norm_num [economyPricing], by norm_num [economyPricing],
      250, by norm_num [economyPricing, base_rate], 15, by norm_num [economyPricing]⟩
  · exact ⟨by norm_num [standardPricing], by norm_num [standardPricing],
      250, by norm_num [standardPricing, base_rate], 20, by norm_num [standardPricing]⟩

/-- C4: for every vehicle-type string the pricing chosen by
`estimate_trip_cost` is exactly the one the specification's
priority-ordered, case-insensitive substring rules assign; in particular
any capitalisation of "mercedes-benz e-class" is priced at the Luxury
tier. -/
theorem estimate_category_matching :
    (∀ s : String, selectPricing s = categoryPricing (specCategory s)) ∧
    (∀ s : String, pyLower s = "mercedes-benz e-class" →
      selectPricing s = luxuryPricing ∧
      ∀ (d : ℚ) (t : ℤ) (m : ℚ),
        (estimate_trip_cost d t s m).vehicle_category = "Premium" ∧
        (estimate_trip_cost d t s m).breakdown.base_fare = pyRound 2 (250 * (3 / 2))) := by
  constructor
  · intro s
    unfold selectPricing specCategory categoryPricing
    dsimp only
    split_ifs <;> rfl
  · intro s hs
    have hsel : selectPricing s = luxuryPricing := by
      unfold selectPricing
      dsimp only
      rw [hs]
      rw [if_pos]
      decide
    refine ⟨hsel, fun d t m => ?_⟩
    constructor
    · show (selectPricing s).comfort = "Premium"
      rw [hsel]
      rfl
    · show pyRound 2 (base_rate * (selectPricing s).base_multiplier) =
        pyRound 2 (250 * (3 / 2))
      rw [hsel]
      rfl

/-- Witness for `estimate_category_matching` at the concrete string
"Mercedes-Benz E-Class". -/
theorem estimate_category_matching_witness :
    pyLower "Mercedes-Benz E-Class" = "mercedes-benz e-class" ∧
    selectPricing "Mercedes-Benz E-Class" = luxuryPricing := by
  have h := estimate_category_matching.2 "Mercedes-Benz E-Class" (by decide)
  exact ⟨by decide, h.1⟩

/-- C6 counterexample: `estimate_trip_cost` accepts a negative
`surge_multiplier` and returns an ordinary fare breakdown (with a negative
total) instead of failing with `InvalidInput`. -/
theorem estimate_negative_surge_accepted :
    (estimate_trip_cost 10 10 "Standard" (-1)).currency = "LKR" ∧
    (estimate_trip_cost 10 10 "Standard" (-1)).estimated_cost = -1450 ∧
    (estimate_trip_cost 10 10 "Standard" (-1)).breakdown.surge_multiplier = -1 := by
  have hsel : selectPricing "Standard" = standardPricing := by rfl
  refine ⟨rfl, ?_, rfl⟩
  simp only [estimate_trip_cost, hsel, standardPricing, base_rate]
  exact pyRound_eq_num 2 (-1450) (by push_cast; ring_nf) (by norm_num)

/-- C6 amended: `estimate_trip_cost` performs no input validation at all —
a negative surge multiplier is accepted and simply scales the subtotal —
while zero distance and duration indeed yield a fare equal to the base
charge. -/
theorem estimate_no_surge_validation (d : ℚ) (t : ℤ) (vt : String) (m : ℚ)
    (hm : m < 0) :
    (estimate_trip_cost d t vt m).currency = "LKR" ∧
    (estimate_trip_cost d t vt m).breakdown.surge_multiplier = m ∧
    (estimate_trip_cost d t vt m).breakdown.final_total =
      pyRound 2 ((base_rate * (selectPricing vt).base_multiplier +
        d * (selectPricing vt).per_km + (t : ℚ) * (selectPricing vt).per_min) * m) ∧
    (estimate_trip_cost 0 0 vt 1).estimated_cost =
      base_rate * (selectPricing vt).base_multiplier := by
  refine ⟨rfl, rfl, rfl, ?_⟩
  obtain ⟨-, -, nb, hnb, -⟩ := selectPricing_rates vt
  simp only [estimate_trip_cost]
  exact pyRound_eq_num 2 nb (by rw [← hnb]; push_cast; ring) hnb.symm

/-- Witness for `estimate_no_surge_validation` at surge `-1`. -/
theorem estimate_no_surge_validation_witness :
    (-1 : ℚ) < 0 ∧
    (estimate_trip_cost 10 10 "Standard" (-1)).breakdown.surge_multiplier = -1 := by
  have h := estimate_no_surge_validation 10 10 "Standard" (-1) (by norm_num)
  exact ⟨by norm_num, h.2.1⟩

/-- C9: for a fixed vehicle type and fixed positive surge multiplier, the
returned total is monotonically non-decreasing in the distance and in the
duration. -/
theorem estimate_cost_monotone (vt : String) (m : ℚ) (hm : 0 < m)
    (d1 d2 : ℚ) (t1 t2 : ℤ) (hd : d1 ≤ d2) (ht : t1 ≤ t2) :
    (estimate_trip_cost d1 t1 vt m).estimated_cost ≤
      (estimate_trip_cost d2 t2 vt m).estimated_cost := by
  obtain ⟨hkm, hpm, -⟩ := selectPricing_rates vt
  simp only [estimate_trip_cost]
  apply pyRound_mono
  have h1 : d1 * (selectPricing vt).per_km ≤ d2 * (selectPricing vt).per_km :=
    mul_le_mul_of_nonneg_right hd hkm.le
  have h2 : (t1 : ℚ) * (selectPricing vt).per_min ≤ (t2 : ℚ) * (selectPricing vt).per_min :=
    mul_le_mul_of_nonneg_right (by exact_mod_cast ht) hpm.le
  apply mul_le_mul_of_nonneg_right _ hm.le
  linarith

/-- Witness for `estimate_cost_monotone`: surge 1, distances 0 ≤ 5,
durations 0 ≤ 7. -/
theorem estimate_cost_monotone_witness :
    (0 : ℚ) < 1 ∧ (0 : ℚ) ≤ 5 ∧ (0 : ℤ) ≤ 7 ∧
    (estimate_trip_cost 0 0 "Standard" 1).estimated_cost ≤
      (estimate_trip_cost 5 7 "Standard" 1).estimated_cost := by
  refine ⟨by norm_num, by norm_num, by norm_num, ?_⟩
  exact estimate_cost_monotone "Standard" 1 (by norm_num) 0 5 0 7 (by norm_num) (by norm_num)

/-- C3 counterexample: among the returned (2-decimal-rounded) fields the
equation `total = subtotal × surgeMultiplier` fails at distance
`1/100000` km, duration `0`, vehicle "Standard", surge `100`: the
returned total is `25000.1` while the returned subtotal times the surge
is `25000`. -/
theorem estimate_rounded_total_breaks :
    (estimate_trip_cost (1 / 100000) 0 "Standard" 100).breakdown.final_total ≠
      (estimate_trip_cost (1 / 100000) 0 "Standard" 100).breakdown.subtotal *
        (estimate_trip_cost (1 / 100000) 0 "Standard" 100).breakdown.surge_multiplier := by
  have hsel : selectPricing "Standard" = standardPricing := by rfl
  simp only [estimate_trip_cost, hsel, standardPricing, base_rate]
  have hft : pyRound 2 (((250 : ℚ) * 1 + 1 / 100000 * 100 + ((0 : ℤ) : ℚ) * 20) * 100) =
      ((2500010 : ℤ) : ℚ) / 10 ^ 2 :=
    pyRound_eq_of_scaled_int (by push_cast; norm_num)
  have hst : pyRound 2 ((250 : ℚ) * 1 + 1 / 100000 * 100 + ((0 : ℤ) : ℚ) * 20) =
      (25000 : ℚ) / 100 :=
    pyRound_down 2 25000 (1 / 10) (by push_cast; norm_num) (by norm_num)
      (by norm_num) (by norm_num)
  rw [hft, hst]
  norm_num

/-- C3 amended: each returned fare field is the 2-decimal rounding of the
corresponding unrounded quantity (the intermediate arithmetic is
unrounded, and the exact equations hold before rounding); among the
returned rounded fields the subtotal equation
`subtotal = baseFare + distanceCharge + timeCharge` still holds, but the
total equation need not (see the counterexample). -/
theorem estimate_breakdown_fields (d : ℚ) (t : ℤ) (vt : String) (m : ℚ) :
    (estimate_trip_cost d t vt m).breakdown.base_fare =
      pyRound 2 (base_rate * (selectPricing vt).base_multiplier) ∧
    (estimate_trip_cost d t vt m).breakdown.distance_charge =
      pyRound 2 (d * (selectPricing vt).per_km) ∧
    (estimate_trip_cost d t vt m).breakdown.time_charge =
      pyRound 2 ((t : ℚ) * (selectPricing vt).per_min) ∧
    (estimate_trip_cost d t vt m).breakdown.subtotal =
      pyRound 2 (base_rate * (selectPricing vt).base_multiplier +
        d * (selectPricing vt).per_km + (t : ℚ) * (selectPricing vt).per_min) ∧
    (estimate_trip_cost d t vt m).breakdown.final_total =
      pyRound 2 ((base_rate * (selectPricing vt).base_multiplier +
        d * (selectPricing vt).per_km + (t : ℚ) * (selectPricing vt).per_min) * m) ∧
    (estimate_trip_cost d t vt m).breakdown.subtotal =
      (estimate_trip_cost d t vt m).breakdown.base_fare +
        (estimate_trip_cost d t vt m).breakdown.distance_charge +
        (estimate_trip_cost d t vt m).breakdown.time_charge := by
  refine ⟨rfl, rfl, rfl, rfl, rfl, ?_⟩
  obtain ⟨-, -, nb, hnb, pm, hpm⟩ := selectPricing_rates vt
  simp only [estimate_trip_cost]
  have ht : (t : ℚ) * (selectPricing vt).per_min = ((t * pm : ℤ) : ℚ) := by
    rw [hpm]; push_cast; ring
  rw [hnb, ht, pyRound2_int_add_int nb (t * pm) (d * (selectPricing vt).per_km),
    pyRound_eq_num 2 nb rfl rfl, pyRound_eq_num 2 (t * pm) rfl rfl]

/-! ### `tools/filter_vehicles_by_constraints.py` -/

/-- A vehicle dict as the filter reads it: `v.get("capacity", 0)` means the
`capacity` key may be absent (`none`), and the feature list is the data the
specification's feature matching would consult. -/
structure Vehicle where
  capacity : Option ℤ
  features : List String
deriving DecidableEq

/-- Embedding of `filter_vehicles_by_constraints(vehicles, min_capacity,
required_features=None)`.  The body normalises `required_features` to `[]`
when it is `None` and then never uses it: the list comprehension keeps
exactly the vehicles with `v.get("capacity", 0) >= min_capacity`. -/
def filter_vehicles_by_constraints (vehicles : List Vehicle) (min_capacity : ℤ)
    (required_features : Option (List String)) : List Vehicle :=
  let _required_features := required_features.getD []
  vehicles.filter (fun v => decide (min_capacity ≤ v.capacity.getD 0))

/-- The candidate filter as the specification describes it: capacity at
least the requested passenger count is mandatory, and every required
feature must be matched exactly. -/
def specFilterVehicles (vehicles : List Vehicle) (passengerCount : ℤ)
    (required : List String) : List Vehicle :=
  vehicles.filter (fun v =>
    decide (passengerCount ≤ v.capacity.getD 0) &&
      required.all (fun f => v.features.contains f))

/-- C8 counterexample: a vehicle with enough capacity but without the
required feature "wheelchair_accessible" is returned by the code's filter,
while the specification's filter excludes it. -/
theorem filter_ignores_features :
    filter_vehicles_by_constraints [⟨some 4, []⟩] 2 (some ["wheelchair_accessible"]) =
      [⟨some 4, []⟩] ∧
    specFilterVehicles [⟨some 4, []⟩] 2 ["wheelchair_accessible"] = [] := by
  constructor <;> rfl

/-- C8 amended: the filter keeps exactly the vehicles whose capacity
(defaulting to 0 when the key is absent) is at least `min_capacity`; the
`required_features` argument is ignored entirely. -/
theorem filter_capacity_only (vehicles : List Vehicle) (min_capacity : ℤ)
    (required_features : Option (List String)) :
    (∀ v : Vehicle,
      v ∈ filter_vehicles_by_constraints vehicles min_capacity required_features ↔
        v ∈ vehicles ∧ min_capacity ≤ v.capacity.getD 0) ∧
    filter_vehicles_by_constraints vehicles min_capacity required_features =
      filter_vehicles_by_constraints vehicles min_capacity none := by
  constructor
  · intro v
    unfold filter_vehicles_by_constraints
    rw [List.mem_filter]
    simp
  · rfl

/-! ### `tools/recommend_best_vehicle.py` -/

/-- The result dict of `recommend_best_vehicle`. -/
structure Recommendation (α : Type) where
  primary_recommendation : Option α
  alternatives : List α
  reasoning : List String
  estimated_total_time : ℤ
  estimated_total_cost : ℚ
deriving DecidableEq

/-- Python list slicing `l[:n]` (a negative bound counts from the end). -/
def pySliceTo {α : Type} (n : ℤ) (l : List α) : List α :=
  if 0 ≤ n then l.take n.toNat else l.take ((l.length : ℤ) + n).toNat

/-- Embedding of `recommend_best_vehicle(ranked_vehicles, trip_details, top_n=3)`.
The body is a placeholder: `trip_details` is never read, and the time,
cost, and reasoning fields are constants. -/
def recommend_best_vehicle {α τ : Type} (ranked_vehicles : List α)
    (trip_details : τ) (top_n : ℤ) : Recommendation α :=
  let top_vehicles := pySliceTo top_n ranked_vehicles
  { primary_recommendation :=
      match top_vehicles with
      | [] => none
      | x :: _ => some x
    alternatives := if 1 < top_vehicles.length then top_vehicles.drop 1 else []
    reasoning := ["Best overall match for requirements",
      "Optimal balance of cost and pickup time",
      "High user preference alignment"]
    estimated_total_time := 33
    estimated_total_cost := 85 / 2 }

/-- C10: for every ranked list, trip details and `top_n`, the
recommendation's estimated total time is the constant 33, its estimated
total cost is the constant 42.50, and its reasoning is a fixed three-item
list; only the primary recommendation and the alternatives (drawn from the
first `top_n` entries when `top_n ≥ 0`) depend on the input. -/
theorem recommend_constant_output {α τ : Type} (ranked : List α) (td : τ) (n : ℤ) :
    (recommend_best_vehicle ranked td n).estimated_total_time = 33 ∧
    (recommend_best_vehicle ranked td n).estimated_total_cost = 85 / 2 ∧
    (recommend_best_vehicle ranked td n).reasoning =
      ["Best overall match for requirements",
        "Optimal balance of cost and pickup time",
        "High user preference alignment"] ∧
    (0 ≤ n →
      (recommend_best_vehicle ranked td n).primary_recommendation =
        (ranked.take n.toNat).head? ∧
      (recommend_best_vehicle ranked td n).alternatives =
        (ranked.take n.toNat).drop 1) := by
  refine ⟨rfl, rfl, rfl, fun hn => ?_⟩
  have htop : pySliceTo n ranked = ranked.take n.toNat := by
    unfold pySliceTo
    rw [if_pos hn]
  constructor
  · show (match pySliceTo n ranked with | [] => none | x :: _ => some x) =
      (ranked.take n.toNat).head?
    rw [htop]
    cases ranked.take n.toNat <;> rfl
  · show (if 1 < (pySliceTo n ranked).length then (pySliceTo n ranked).drop 1 else []) =
      (ranked.take n.toNat).drop 1
    rw [htop]
    rcases ranked.take n.toNat with - | ⟨a, rest⟩
    · rfl
    · rcases rest with - | ⟨b, rest'⟩
      · rfl
      · simp

/-- Witness for `recommend_constant_output` on a concrete list with
`top_n = 2`. -/
theorem recommend_constant_output_witness :
    (0 : ℤ) ≤ 2 ∧
    (recommend_best_vehicle [10, 20, 30] () 2).primary_recommendation = some 10 ∧
    (recommend_best_vehicle [10, 20, 30] () 2).alternatives = [20] ∧
    (recommend_best_vehicle [10, 20, 30] () 2).estimated_total_time = 33 := by
  have h := recommend_constant_output [10, 20, 30] () 2
  have h2 := h.2.2.2 (by norm_num)
  refine ⟨by norm_num, ?_, ?_, h.1⟩
  · rw [h2.1]
    rfl
  · rw [h2.2]
    rfl

/-! ### `tools/geocode_location.py`

The Nominatim call is modelled by passing the response as an argument.
One caveat drives the zero-results behaviour: the module uses
`logger.warning(...)` / `logger.info(...)` but never imports or defines
`logger`, so entering the zero-results branch raises `NameError` at the
`logger.warning` call; the surrounding `except Exception` handler catches
it and returns its generic dict with `str(e)`.  Everything after the
`logger.warning` line in that branch (the `_get_fallback_location` lookup
and the recursive retry) is dead code, so the embedding of
`geocode_location` needs no recursion. -/

/-- One parsed item of the Nominatim JSON result list (`lat`/`lon` are
parsed with `float(...)` in the source; we model the parsed values). -/
structure GeoResult where
  lat : ℚ
  lon : ℚ
  display_name : String
deriving DecidableEq

/-- The outcome of the `requests.get` call: a 200 response with its parsed
result list, a non-200 status code, or a raised transport exception. -/
inductive GeoResp where
  | ok (results : List GeoResult)
  | status (code : ℕ)
  | netError (msg : String)
deriving DecidableEq

/-- The result dict of `geocode_location`; `none` fields model absent
keys. -/
structure GeoOut where
  success : Bool
  location_name : String
  ambiguous : Option Bool := none
  coordinates : Option (ℚ × ℚ) := none
  full_address : Option String := none
  display_name : Option String := none
  confidence : Option String := none
  alternatives : Option (List String) := none
  message : Option String := none
  suggestion : Option String := none
  error : Option String := none
  source : Option String := none
deriving DecidableEq

/-- Embedding of `_is_location_too_broad(location)`. -/
def _is_location_too_broad (location : String) : Bool :=
  let location_lower := pyStrip (pyLower location)
  let specifics : List String := ["bus stand", "railway", "station", "fort", "hospital",
    "airport", "hotel", "mall", "junction", "road", "street",
    "temple", "church", "mosque", "beach", "park", "market"]
  if specifics.any (fun spec => pyIn spec location_lower) then
    false
  else
    let broad_locations : List String := ["colombo", "gampaha", "kandy", "galle",
      "negombo", "kurunegala", "anuradhapura", "jaffna", "trincomalee", "batticaloa",
      "matara", "ratnapura", "badulla", "nuwara eliya", "kalutara", "hambantota"]
    let words := pySplitWs location_lower
    if words.length ≤ 2 then
      broad_locations.any (fun broad => location_lower == broad)
    else
      false

/-- Embedding of `_get_specific_alternatives(location)`; the dict iteration returns the
first key with `location_lower == key or location_lower.startswith(key)`. -/
def _get_specific_alternatives (location : String) : List String :=
  let location_lower := pyStrip (pyLower location)
  let alternatives_map : List (String × List String) := [
    ("colombo", ["Colombo Fort (Railway Station)", "Pettah (Market Area)",
      "Bambalapitiya", "Kollupitiya", "Colombo 7 (Cinnamon Gardens)", "Dehiwala"]),
    ("gampaha", ["Gampaha Bus Stand", "Gampaha Railway Station",
      "Gampaha Town Center", "Gampaha Hospital"]),
    ("kandy", ["Kandy City Center", "Kandy Railway Station", "Kandy Bus Stand",
      "Temple of the Tooth", "Peradeniya"]),
    ("negombo", ["Negombo Bus Stand", "Negombo Beach", "Negombo City Center"]),
    ("galle", ["Galle Fort", "Galle Bus Stand", "Galle Railway Station"])]
  match alternatives_map.find? (fun kv =>
      location_lower == kv.1 || pyStartsWith location_lower kv.1) with
  | some kv => kv.2
  | none => [location ++ " Bus Stand", location ++ " Railway Station",
      location ++ " Town Center"]

/-- Embedding of `_get_fallback_location(location)`; first matching key of the ordered
`fallback_map` wins, then the `major_cities` loop, then `""`. -/
def _get_fallback_location (location : String) : String :=
  let location_lower := pyLower location
  let fallback_map : List (String × String) := [
    ("wso2", "105 Bauddhaloka Mawatha, Colombo 4, Sri Lanka"),
    ("colombo 1", "Colombo 01, Fort, Sri Lanka"),
    ("colombo 2", "Colombo 02, Slave Island, Sri Lanka"),
    ("colombo 3", "Colombo 03, Kollupitiya, Sri Lanka"),
    ("colombo 4", "Colombo 04, Bambalapitiya, Sri Lanka"),
    ("colombo 5", "Colombo 05, Narahenpita, Sri Lanka"),
    ("colombo 6", "Colombo 06, Wellawatta, Sri Lanka"),
    ("colombo 7", "Colombo 07, Cinnamon Gardens, Sri Lanka"),
    ("colombo fort", "Fort, Colombo, Sri Lanka"),
    ("pettah", "Pettah, Colombo, Sri Lanka"),
    ("bambalapitiya", "Bambalapitiya, Colombo, Sri Lanka"),
    ("wellawatta", "Wellawatta, Colombo, Sri Lanka"),
    ("mount lavinia", "Mount Lavinia, Dehiwala-Mount Lavinia, Sri Lanka")]
  match fallback_map.find? (fun kv => pyIn kv.1 location_lower) with
  | some kv => kv.2
  | none =>
    let major_cities : List String := ["colombo", "gampaha", "kandy", "galle",
      "negombo", "kurunegala", "anuradhapura", "jaffna", "matara", "ratnapura",
      "badulla"]
    match major_cities.find? (fun city => pyIn city location_lower) with
    | some city => pyTitle city ++ ", Sri Lanka"
    | none => ""

/-- Tail of `_enhance_sri_lankan_location` from the final
`if "sri lanka" not in location_lower` check on (the Python early returns
are modelled as continuation functions). -/
def enhanceTail (location location_lower : String) : String :=
  if pyIn "sri lanka" location_lower then location else location ++ ", Sri Lanka"

/-- Tail of `_enhance_sri_lankan_location` from the
`if len(location.split()) <= 2` hotel/city check on. -/
def enhanceHotelCity (location location_lower : String) : String :=
  if (pySplitWs location).length ≤ 2 then
    if pyIn "hotel" location_lower || pyIn "land of the kings" location_lower then
      if pyIn "gampaha" location_lower then "Gampaha, Western Province, Sri Lanka"
      else if pyIn "colombo" location_lower then "Colombo, Western Province, Sri Lanka"
      else if pyIn "kandy" location_lower then "Kandy, Central Province, Sri Lanka"
      else enhanceTail location location_lower
    else enhanceTail location location_lower
  else enhanceTail location location_lower

/-- Tail of `_enhance_sri_lankan_location` from the generic
`"railway station"` pattern on. -/
def enhanceRailway (location location_lower : String) : String :=
  if pyIn "railway station" location_lower && !(pyIn ", " location) then
    let city := pyStrip (pyReplace (pyReplace location_lower " railway station" "") " station" "")
    if city ≠ "" then
      pyTitle city ++ " Railway Station, " ++ pyTitle city ++ ", Sri Lanka"
    else enhanceHotelCity location location_lower
  else enhanceHotelCity location location_lower

/-- Tail of `_enhance_sri_lankan_location` from the generic
`"bus stand"` pattern on. -/
def enhanceBusStand (location location_lower : String) : String :=
  if pyIn "bus stand" location_lower && !(pyIn ", " location) then
    let city := pyStrip (pyReplace location_lower " bus stand" "")
    if city ≠ "" then
      pyTitle city ++ " Bus Stand, " ++ pyTitle city ++ ", Sri Lanka"
    else enhanceRailway location location_lower
  else enhanceRailway location location_lower

/-- Embedding of `_enhance_sri_lankan_location(location)`: the ordered alias table,
then the bus-stand / railway-station patterns, then the hotel fallback,
then appending ", Sri Lanka". -/
def _enhance_sri_lankan_location (location : String) : String :=
  let location_lower := pyStrip (pyLower location)
  let enhancements : List (String × String) := [
    ("bia", "Bandaranaike International Airport, Katunayake, Sri Lanka"),
    ("katunayake airport", "Bandaranaike International Airport, Katunayake, Sri Lanka"),
    ("colombo fort", "Fort, Colombo, Sri Lanka"),
    ("fort", "Fort, Colombo 01, Sri Lanka"),
    ("galle face", "Galle Face, Colombo, Sri Lanka"),
    ("mount lavinia", "Mount Lavinia, Dehiwala-Mount Lavinia, Sri Lanka"),
    ("kandy city", "Kandy, Central Province, Sri Lanka"),
    ("peradeniya", "Peradeniya, Kandy, Sri Lanka"),
    ("nugegoda", "Nugegoda, Colombo, Sri Lanka"),
    ("maharagama", "Maharagama, Colombo, Sri Lanka"),
    ("negombo", "Negombo, Western Province, Sri Lanka"),
    ("galle", "Galle, Southern Province, Sri Lanka"),
    ("matara", "Matara, Southern Province, Sri Lanka"),
    ("jaffna", "Jaffna, Northern Province, Sri Lanka"),
    ("anuradhapura", "Anuradhapura, North Central Province, Sri Lanka"),
    ("polonnaruwa", "Polonnaruwa, North Central Province, Sri Lanka"),
    ("trincomalee", "Trincomalee, Eastern Province, Sri Lanka"),
    ("batticaloa", "Batticaloa, Eastern Province, Sri Lanka"),
    ("kurunegala", "Kurunegala, North Western Province, Sri Lanka"),
    ("ratnapura", "Ratnapura, Sabaragamuwa Province, Sri Lanka"),
    ("badulla", "Badulla, Uva Province, Sri Lanka"),
    ("nuwara eliya", "Nuwara Eliya, Central Province, Sri Lanka"),
    ("ella", "Ella, Badulla, Sri Lanka"),
    ("sigiriya", "Sigiriya, Matale, Sri Lanka"),
    ("dambulla", "Dambulla, Matale, Sri Lanka"),
    ("wso2", "105 Bauddhaloka Mawatha, Colombo 4, Sri Lanka"),
    ("gampaha bus stand", "Gampaha Bus Stand, Gampaha, Sri Lanka"),
    ("gampaha railway station", "Gampaha Railway Station, Gampaha, Sri Lanka"),
    ("gampaha station", "Gampaha Railway Station, Gampaha, Sri Lanka"),
    ("colombo fort station", "Colombo Fort Railway Station, Sri Lanka"),
    ("fort station", "Colombo Fort Railway Station, Sri Lanka"),
    ("kandy bus stand", "Kandy Bus Stand, Kandy, Sri Lanka"),
    ("kandy railway station", "Kandy Railway Station, Sri Lanka"),
    ("pettah bus stand", "Pettah Bus Stand, Colombo, Sri Lanka")]
  match enhancements.find? (fun kv =>
      location_lower == kv.1 || pyIn kv.1 location_lower) with
  | some kv => kv.2
  | none => enhanceBusStand location location_lower

/-- Embedding of `geocode_location(location_name)` given the response `resp` the HTTP
call yields.  `GeoResp.status code` stands for a non-200 response. -/
def geocode_location (resp : GeoResp) (location_name : String) : GeoOut :=
  let is_broad := _is_location_too_broad location_name
  match resp with
  | GeoResp.ok [] =>
      -- Zero results: `logger.warning(...)` raises `NameError` (unbound
      -- `logger`), so the `except Exception` handler returns its dict with
      -- `str(e)`; the fallback lookup and recursive retry are dead code.
      { success := false, location_name := location_name,
        error := some "name 'logger' is not defined",
        suggestion := some "Could not geocode location. Using city name for calculations." }
  | GeoResp.ok (result :: rest) =>
      if is_broad && decide (0 < rest.length) then
        let alternatives := _get_specific_alternatives location_name
        { success := false, ambiguous := some true, location_name := location_name,
          alternatives := some alternatives,
          message := some ("'" ++ location_name ++
            "' is too broad. Please specify a more exact location."),
          suggestion := some ("Choose from: " ++ String.intercalate ", " alternatives) }
      else
        { success := true, location_name := location_name,
          coordinates := some (result.lat, result.lon),
          full_address := some result.display_name,
          display_name := some result.display_name,
          confidence := some "high", ambiguous := some false,
          source := some "OpenStreetMap Nominatim" }
  | GeoResp.status code =>
      { success := false, location_name := location_name,
        error := some ("Geocoding API returned status " ++ toString code),
        suggestion := some "Service temporarily unavailable. Using approximate location." }
  | GeoResp.netError e =>
      { success := false, location_name := location_name,
        error := some e,
        suggestion := some "Could not geocode location. Using city name for calculations." }

/-- C1: evaluating the embedded code at a failing input.  On a 200
response with zero results for "WSO2 Colombo", the alias table does map
the input ("wso2" ↦ the Colombo 4 address), but the returned dict is the
exception handler's generic one — carrying the `NameError` on the unbound
name `logger` — not the claimed one-retry-then-`NotFound` outcome with the
landmark suggestion. -/
theorem geocode_zero_results_dead_fallback :
    _get_fallback_location "WSO2 Colombo" =
      "105 Bauddhaloka Mawatha, Colombo 4, Sri Lanka" ∧
    geocode_location (GeoResp.ok []) "WSO2 Colombo" =
      { success := false, location_name := "WSO2 Colombo",
        error := some "name 'logger' is not defined",
        suggestion := some "Could not geocode location. Using city name for calculations." } ∧
    (geocode_location (GeoResp.ok []) "WSO2 Colombo").suggestion ≠
      some "Please provide a nearby landmark, address, or well-known location (e.g., 'Colombo 4' instead of specific office names)" := by
  refine ⟨by decide, by rfl, by decide⟩

/-- C5 counterexample: `resolve("")` does not fail with `InvalidInput` —
with a successful single-result response it returns an ordinary success
result with coordinates. -/
theorem geocode_empty_input_not_rejected :
    (geocode_location (GeoResp.ok [⟨7, 80, "Sri Lanka"⟩]) "").success = true ∧
    (geocode_location (GeoResp.ok [⟨7, 80, "Sri Lanka"⟩]) "").coordinates = some (7, 80) ∧
    (geocode_location (GeoResp.ok [⟨7, 80, "Sri Lanka"⟩]) "").error = none := by
  refine ⟨rfl, rfl, rfl⟩

/-- C5 amended: `resolve` performs no input validation.  The empty text is
enhanced to the query ", Sri Lanka" and looked up; with any non-empty
result list the call returns a plain success result (there is no
`InvalidInput` outcome anywhere in the function). -/
theorem geocode_no_input_validation :
    _enhance_sri_lankan_location "" = ", Sri Lanka" ∧
    ∀ (r : GeoResult) (rest : List GeoResult),
      (geocode_location (GeoResp.ok (r :: rest)) "").success = true ∧
      (geocode_location (GeoResp.ok (r :: rest)) "").coordinates = some (r.lat, r.lon) ∧
      (geocode_location (GeoResp.ok (r :: rest)) "").error = none := by
  refine ⟨by decide, fun r rest => ?_⟩
  have hb : _is_location_too_broad "" = false := by decide
  simp [geocode_location, hb]

/-- C7: whenever the input is classified broad and the 200 response holds
at least two results, the result is the ambiguous dict whose alternatives
come from `_get_specific_alternatives`; for "Colombo" that is the fixed
6-item list, and for a broad city absent from the table ("Kurunegala")
the three synthesized suggestions. -/
theorem geocode_broad_ambiguous (name : String) (r1 r2 : GeoResult)
    (rest : List GeoResult) (hb : _is_location_too_broad name = true) :
    geocode_location (GeoResp.ok (r1 :: r2 :: rest)) name =
      { success := false, ambiguous := some true, location_name := name,
        alternatives := some (_get_specific_alternatives name),
        message := some ("'" ++ name ++ "' is too broad. Please specify a more exact location."),
        suggestion := some ("Choose from: " ++
          String.intercalate ", " (_get_specific_alternatives name)) } ∧
    _is_location_too_broad "Colombo" = true ∧
    _get_specific_alternatives "Colombo" =
      ["Colombo Fort (Railway Station)", "Pettah (Market Area)", "Bambalapitiya",
        "Kollupitiya", "Colombo 7 (Cinnamon Gardens)", "Dehiwala"] ∧
    _is_location_too_broad "Kurunegala" = true ∧
    _get_specific_alternatives "Kurunegala" =
      ["Kurunegala Bus Stand", "Kurunegala Railway Station", "Kurunegala Town Center"] := by
  refine ⟨?_, by decide, by decide, by decide, by decide⟩
  simp [geocode_location, hb]

/-- Witness for `geocode_broad_ambiguous` at "Colombo" with a two-result
response. -/
theorem geocode_broad_ambiguous_witness :
    _is_location_too_broad "Colombo" = true ∧
    (geocode_location
        (GeoResp.ok [⟨7, 80, "Colombo, Sri Lanka"⟩, ⟨7, 80, "Colombo District"⟩])
        "Colombo").alternatives =
      some ["Colombo Fort (Railway Station)", "Pettah (Market Area)", "Bambalapitiya",
        "Kollupitiya", "Colombo 7 (Cinnamon Gardens)", "Dehiwala"] := by
  have hb : _is_location_too_broad "Colombo" = true := by decide
  have h := geocode_broad_ambiguous "Colombo" ⟨7, 80, "Colombo, Sri Lanka"⟩
    ⟨7, 80, "Colombo District"⟩ [] hb
  refine ⟨hb, ?_⟩
  rw [h.1]
  show some (_get_specific_alternatives "Colombo") = _
  rw [h.2.2.1]

/-! ### `tools/calculate_route.py`

The OSRM call is modelled by passing the response as an argument.  The
fields of the result dict that merely render the numbers into text
(`route_summary`) are not modelled — exact real numbers have no canonical
decimal rendering — and the nested origin/destination dicts become
`RoutePoint`s. -/

/-- One entry of the OSRM `routes` list; `route.get('distance', 0)` and
`route.get('duration', 0)` default missing keys to 0. -/
structure OsrmRoute where
  distance : Option ℝ
  duration : Option ℝ

/-- The parsed OSRM JSON body: `data.get('code')` and the optional
`routes` key. -/
structure OsrmData where
  code : Option String
  routes : Option (List OsrmRoute)

/-- The outcome of the routing `requests.get` call: a 200 response with
its parsed body, a non-200 status, or a raised transport exception. -/
inductive RouteResp where
  | ok (data : OsrmData)
  | status (code : ℕ)
  | exc (msg : String)

/-- The nested origin/destination dict of the route result. -/
structure RoutePoint where
  name : String
  latitude : ℝ
  longitude : ℝ

/-- The result dict of `calculate_route` /
`_calculate_haversine_fallback`. -/
structure RouteOut where
  success : Bool
  distance_km : ℝ
  distance_meters : ℝ
  duration_minutes : ℝ
  duration_seconds : ℝ
  origin : RoutePoint
  destination : RoutePoint
  source : String
  note : Option String := none

/-- Embedding of `math.radians`. -/
noncomputable def radians (x : ℝ) : ℝ := x * Real.pi / 180

/-- Python `math.atan2(y, x)`. -/
noncomputable def atan2 (y x : ℝ) : ℝ :=
  if 0 < x then Real.arctan (y / x)
  else if x = 0 then
    (if 0 < y then Real.pi / 2 else if y < 0 then -(Real.pi / 2) else 0)
  else if 0 ≤ y then Real.arctan (y / x) + Real.pi
  else Real.arctan (y / x) - Real.pi

/-- The intermediate `a` of the haversine computation in
`_calculate_haversine_fallback`. -/
noncomputable def havA (lat1 lon1 lat2 lon2 : ℝ) : ℝ :=
  let lat1_rad := radians lat1
  let lon1_rad := radians lon1
  let lat2_rad := radians lat2
  let lon2_rad := radians lon2
  let dlat := lat2_rad - lat1_rad
  let dlon := lon2_rad - lon1_rad
  Real.sin (dlat / 2) ^ 2 +
    Real.cos lat1_rad * Real.cos lat2_rad * Real.sin (dlon / 2) ^ 2

/-- The intermediate `c` (central angle) of the haversine computation. -/
noncomputable def havC (lat1 lon1 lat2 lon2 : ℝ) : ℝ :=
  2 * atan2 (Real.sqrt (havA lat1 lon1 lat2 lon2))
    (Real.sqrt (1 - havA lat1 lon1 lat2 lon2))

/-- Embedding of `_calculate_haversine_fallback(lat1, lon1, lat2, lon2, origin_name,
destination_name)`.  Python's `math.sqrt` raises `ValueError` on a
negative argument, so the result is `none` (an escaping exception) unless
`0 ≤ a ≤ 1`. -/
noncomputable def _calculate_haversine_fallback (lat1 lon1 lat2 lon2 : ℝ)
    (origin_name destination_name : String) : Option RouteOut :=
  if 0 ≤ havA lat1 lon1 lat2 lon2 ∧ havA lat1 lon1 lat2 lon2 ≤ 1 then
    let distance_km := pyRound 2 (6371 * havC lat1 lon1 lat2 lon2)
    let duration_minutes := pyRound 1 (distance_km / 50 * 60)
    some { success := true
           distance_km := distance_km
           distance_meters := distance_km * 1000
           duration_minutes := duration_minutes
           duration_seconds := duration_minutes * 60
           origin := ⟨pyOrElse origin_name "Origin", lat1, lon1⟩
           destination := ⟨pyOrElse destination_name "Destination", lat2, lon2⟩
           source := "Haversine formula (fallback)"
           note := some "Routing service unavailable. Using straight-line distance estimate." }
  else
    none

/-- Embedding of `calculate_route(origin_lat, origin_lon, destination_lat,
destination_lon, origin_name, destination_name)` given the response
`resp`; `RouteResp.status code` stands for a non-200 response.  If the
fallback itself raises, the `except` handler calls it again and the
second exception escapes, so every failing branch is observationally the
fallback's `Option` value. -/
noncomputable def calculate_route (resp : RouteResp)
    (origin_lat origin_lon destination_lat destination_lon : ℝ)
    (origin_name destination_name : String) : Option RouteOut :=
  match resp with
  | RouteResp.ok data =>
    if data.code = some "Ok" then
      match data.routes with
      | some (route :: _) =>
        let distance_meters := route.distance.getD 0
        let duration_seconds := route.duration.getD 0
        let distance_km := pyRound 2 (distance_meters / 1000)
        let duration_minutes := pyRound 1 (duration_seconds / 60)
        some { success := true
               distance_km := distance_km
               distance_meters := distance_meters
               duration_minutes := duration_minutes
               duration_seconds := duration_seconds
               origin := ⟨pyOrElse origin_name "Origin", origin_lat, origin_lon⟩
               destination := ⟨pyOrElse destination_name "Destination",
                 destination_lat, destination_lon⟩
               source := "OSRM (OpenStreetMap)" }
      | _ =>
        _calculate_haversine_fallback origin_lat origin_lon destination_lat
          destination_lon origin_name destination_name
    else
      _calculate_haversine_fallback origin_lat origin_lon destination_lat
        destination_lon origin_name destination_name
  | RouteResp.status _ =>
    _calculate_haversine_fallback origin_lat origin_lon destination_lat
      destination_lon origin_name destination_name
  | RouteResp.exc _ =>
    _calculate_haversine_fallback origin_lat origin_lon destination_lat
      destination_lon origin_name destination_name

/-- The network routing path succeeded: a 200 response whose body has
`code == 'Ok'` and a non-empty `routes` list. -/
def routeNetworkSuccess : RouteResp → Prop
  | RouteResp.ok data =>
    data.code = some "Ok" ∧ ∃ r rest, data.routes = some (r :: rest)
  | _ => False

/-- The OSRM-reported distances and durations are non-negative (a physical
assumption about the collaborator, needed only for the success branch). -/
def goodReports : RouteResp → Prop
  | RouteResp.ok data =>
    ∀ rs, data.routes = some rs →
      ∀ r ∈ rs, 0 ≤ r.distance.getD 0 ∧ 0 ≤ r.duration.getD 0
  | _ => True

/-- Latitudes within ±90 degrees have non-negative cosine in radians. -/
theorem cos_radians_nonneg {l : ℝ} (h : |l| ≤ 90) : 0 ≤ Real.cos (radians l) := by
  obtain ⟨h1, h2⟩ := abs_le.mp h
  have hpi := Real.pi_pos
  apply Real.cos_nonneg_of_mem_Icc
  constructor
  · unfold radians
    nlinarith
  · unfold radians
    nlinarith

/-- For valid latitudes the haversine intermediate `a` is non-negative. -/
theorem havA_nonneg (lat1 lon1 lat2 lon2 : ℝ) (h1 : |lat1| ≤ 90)
    (h2 : |lat2| ≤ 90) : 0 ≤ havA lat1 lon1 lat2 lon2 := by
  have c1 := cos_radians_nonneg h1
  have c2 := cos_radians_nonneg h2
  unfold havA
  dsimp only
  exact add_nonneg (sq_nonneg _) (mul_nonneg (mul_nonneg c1 c2) (sq_nonneg _))

/-- For valid latitudes the haversine intermediate `a` is at most one. -/
theorem havA_le_one (lat1 lon1 lat2 lon2 : ℝ) (h1 : |lat1| ≤ 90)
    (h2 : |lat2| ≤ 90) : havA lat1 lon1 lat2 lon2 ≤ 1 := by
  have c1 := cos_radians_nonneg h1
  have c2 := cos_radians_nonneg h2
  unfold havA
  dsimp only
  have hs2 : Real.sin ((radians lon2 - radians lon1) / 2) ^ 2 ≤ 1 :=
    Real.sin_sq_le_one _
  have hkey : Real.sin ((radians lat2 - radians lat1) / 2) ^ 2 =
      1 / 2 - Real.cos (radians lat2 - radians lat1) / 2 := by
    have h2x : 2 * ((radians lat2 - radians lat1) / 2) =
        radians lat2 - radians lat1 := by ring
    rw [Real.sin_sq_eq_half_sub, h2x]
  have hcos_sub : Real.cos (radians lat2 - radians lat1) =
      Real.cos (radians lat2) * Real.cos (radians lat1) +
        Real.sin (radians lat2) * Real.sin (radians lat1) :=
    Real.cos_sub _ _
  have hcos_add : Real.cos (radians lat1 + radians lat2) =
      Real.cos (radians lat1) * Real.cos (radians lat2) -
        Real.sin (radians lat1) * Real.sin (radians lat2) :=
    Real.cos_add _ _
  have hle : Real.cos (radians lat1 + radians lat2) ≤ 1 := Real.cos_le_one _
  nlinarith [mul_nonneg c1 c2,
    sq_nonneg (Real.sin ((radians lon2 - radians lon1) / 2))]

/-- The value `math.atan2(y, x)` is non-negative whenever `y ≥ 0`. -/
theorem atan2_nonneg {y x : ℝ} (hy : 0 ≤ y) : 0 ≤ atan2 y x := by
  have hpi := Real.pi_pos
  unfold atan2
  split_ifs with hx hx0 hy0 hyneg
  · have : 0 ≤ y / x := div_nonneg hy hx.le
    rw [← Real.arctan_zero]
    exact Real.arctan_strictMono.monotone this
  · positivity
  · linarith
  · exact le_refl 0
  · have := Real.neg_pi_div_two_lt_arctan (y / x)
    linarith

/-- The haversine central angle `c` is non-negative. -/
theorem havC_nonneg (lat1 lon1 lat2 lon2 : ℝ) :
    0 ≤ havC lat1 lon1 lat2 lon2 := by
  unfold havC
  have h := atan2_nonneg (x := Real.sqrt (1 - havA lat1 lon1 lat2 lon2))
    (Real.sqrt_nonneg (havA lat1 lon1 lat2 lon2))
  linarith

/-- For valid latitudes the fallback never raises and its fields satisfy
the claimed formulas. -/
theorem haversine_fallback_spec (lat1 lon1 lat2 lon2 : ℝ)
    (onm dnm : String) (h1 : |lat1| ≤ 90) (h2 : |lat2| ≤ 90) :
    ∃ out : RouteOut,
      _calculate_haversine_fallback lat1 lon1 lat2 lon2 onm dnm = some out ∧
      out.distance_km = pyRound 2 (6371 * havC lat1 lon1 lat2 lon2) ∧
      out.duration_minutes = pyRound 1 (out.distance_km / 50 * 60) ∧
      0 ≤ out.distance_km ∧ 0 ≤ out.duration_minutes ∧
      out.source = "Haversine formula (fallback)" ∧
      out.note = some "Routing service unavailable. Using straight-line distance estimate." := by
  have hA0 := havA_nonneg lat1 lon1 lat2 lon2 h1 h2
  have hA1 := havA_le_one lat1 lon1 lat2 lon2 h1 h2
  have hd0 : 0 ≤ pyRound 2 (6371 * havC lat1 lon1 lat2 lon2) :=
    pyRound_nonneg 2 (mul_nonneg (by norm_num) (havC_nonneg lat1 lon1 lat2 lon2))
  have hm0 : 0 ≤ pyRound 1 (pyRound 2 (6371 * havC lat1 lon1 lat2 lon2) / 50 * 60) :=
    pyRound_nonneg 1 (mul_nonneg (div_nonneg hd0 (by norm_num)) (by norm_num))
  refine ⟨{ success := true
            distance_km := pyRound 2 (6371 * havC lat1 lon1 lat2 lon2)
            distance_meters := pyRound 2 (6371 * havC lat1 lon1 lat2 lon2) * 1000
            duration_minutes :=
              pyRound 1 (pyRound 2 (6371 * havC lat1 lon1 lat2 lon2) / 50 * 60)
            duration_seconds :=
              pyRound 1 (pyRound 2 (6371 * havC lat1 lon1 lat2 lon2) / 50 * 60) * 60
            origin := ⟨pyOrElse onm "Origin", lat1, lon1⟩
            destination := ⟨pyOrElse dnm "Destination", lat2, lon2⟩
            source := "Haversine formula (fallback)"
            note := some "Routing service unavailable. Using straight-line distance estimate." },
    ?_, rfl, rfl, hd0, hm0, rfl, rfl⟩
  unfold _calculate_haversine_fallback
  rw [if_pos ⟨hA0, hA1⟩]

/-- C2: for valid coordinates (and a collaborator reporting non-negative
route values), `calculate_route` always produces an estimate with
non-negative distance and duration, and on any failure of the network
routing path the result is the straight-line fallback: haversine distance
(Earth radius 6371 km) rounded to 2 decimals, duration
`round(distanceKm / 50 × 60, 1)`, with the fallback source and note. -/
theorem calculate_route_estimate (resp : RouteResp)
    (origin_lat origin_lon destination_lat destination_lon : ℝ)
    (origin_name destination_name : String)
    (h1 : |origin_lat| ≤ 90) (h2 : |destination_lat| ≤ 90)
    (hr : goodReports resp) :
    ∃ out : RouteOut,
      calculate_route resp origin_lat origin_lon destination_lat destination_lon
          origin_name destination_name = some out ∧
      0 ≤ out.distance_km ∧ 0 ≤ out.duration_minutes ∧
      (¬ routeNetworkSuccess resp →
        out.source = "Haversine formula (fallback)" ∧
        out.distance_km =
          pyRound 2 (6371 * havC origin_lat origin_lon destination_lat destination_lon) ∧
        out.duration_minutes = pyRound 1 (out.distance_km / 50 * 60) ∧
        out.note = some "Routing service unavailable. Using straight-line distance estimate.") := by
  obtain ⟨fb, hfb, hfb1, hfb2, hfb3, hfb4, hfb5, hfb6⟩ :=
    haversine_fallback_spec origin_lat origin_lon destination_lat destination_lon
      origin_name destination_name h1 h2
  rcases resp with data | code | msg
  · by_cases hc : data.code = some "Ok"
    · rcases hroutes : data.routes with - | rs
      · refine ⟨fb, ?_, hfb3, hfb4, fun _ => ⟨hfb5, hfb1, hfb2, hfb6⟩⟩
        simp only [calculate_route]
        rw [if_pos hc, hroutes]
        exact hfb
      · rcases rs with - | ⟨r, rest⟩
        · refine ⟨fb, ?_, hfb3, hfb4, fun _ => ⟨hfb5, hfb1, hfb2, hfb6⟩⟩
          simp only [calculate_route]
          rw [if_pos hc, hroutes]
          exact hfb
        · have hrep := hr (r :: rest) hroutes r (List.mem_cons_self r rest)
          refine ⟨{ success := true
                    distance_km := pyRound 2 (r.distance.getD 0 / 1000)
                    distance_meters := r.distance.getD 0
                    duration_minutes := pyRound 1 (r.duration.getD 0 / 60)
                    duration_seconds := r.duration.getD 0
                    origin := ⟨pyOrElse origin_name "Origin", origin_lat, origin_lon⟩
                    destination := ⟨pyOrElse destination_name "Destination",
                      destination_lat, destination_lon⟩
                    source := "OSRM (OpenStreetMap)" }, ?_, ?_, ?_, ?_⟩
          · simp only [calculate_route]
            rw [if_pos hc, hroutes]
          · exact pyRound_nonneg 2 (div_nonneg hrep.1 (by norm_num))
          · exact pyRound_nonneg 1 (div_nonneg hrep.2 (by norm_num))
          · intro hns
            exact absurd
              (show routeNetworkSuccess (RouteResp.ok data) from ⟨hc, r, rest, hroutes⟩) hns
    · refine ⟨fb, ?_, hfb3, hfb4, fun _ => ⟨hfb5, hfb1, hfb2, hfb6⟩⟩
      simp only [calculate_route]
      rw [if_neg hc]
      exact hfb
  · exact ⟨fb, hfb, hfb3, hfb4, fun _ => ⟨hfb5, hfb1, hfb2, hfb6⟩⟩
  · exact ⟨fb, hfb, hfb3, hfb4, fun _ => ⟨hfb5, hfb1, hfb2, hfb6⟩⟩

/-- Witness for `calculate_route_estimate`: a non-200 response at the
origin/destination (0, 0) → (6, 80). -/
theorem calculate_route_estimate_witness :
    |(0 : ℝ)| ≤ 90 ∧ |(6 : ℝ)| ≤ 90 ∧ goodReports (RouteResp.status 500) ∧
    ∃ out : RouteOut,
      calculate_route (RouteResp.status 500) 0 0 6 80 "" "" = some out ∧
      0 ≤ out.distance_km ∧ 0 ≤ out.duration_minutes ∧
      out.source = "Haversine formula (fallback)" := by
  have h := calculate_route_estimate (RouteResp.status 500) 0 0 6 80 "" ""
    (by norm_num) (by norm_num) trivial
  obtain ⟨out, hout, hd, hm, hfail⟩ := h
  have hf := hfail (by intro hcontr; exact hcontr)
  exact ⟨by norm_num, by norm_num, trivial, out, hout, hd, hm, hf.1⟩

end RideBooking
